import Mathlib

/-!
# Verification of the photo-triage services

Shallow embedding of the photo-triage repository (an Agent Server exposing the
customer-facing HTTP API and an MCP Server exposing deterministic photo tools),
together with theorems settling the frozen claims about it.

Modelling conventions:
* Python dict/list/JSON data is modelled by the inductive `JVal`; dicts are
  association lists in insertion order (dict literals in the source have
  distinct keys, so first-match lookup coincides with Python lookup).
* Python floats are modelled by `ℚ`; `round(x, 3)` is modelled by round-half-
  to-even at three decimals (`pyRound3`), matching Python on the values the
  claims mention.
* Exceptions are modelled with `Except`; FastAPI `HTTPException` and generic
  exceptions are the two constructors of `PyExc`.
* The on-disk file system is a map `String → Option (List ℕ)` (path to byte
  contents); external effects (MCP calls, the vision model, PIL image decoding)
  enter as explicit oracle arguments.
-/

namespace PhotoTriage

/-- JSON-like runtime values (Python dicts, lists, strings, numbers, booleans,
None), used for tool arguments and results throughout both services. -/
inductive JVal where
  | null : JVal
  | bool (b : Bool) : JVal
  | num (q : ℚ) : JVal
  | str (s : String) : JVal
  | arr (xs : List JVal) : JVal
  | obj (kvs : List (String × JVal)) : JVal

/-- First-match lookup in an association list (Python dict lookup; dict
literals in the source have distinct keys). -/
def lookupKV : List (String × JVal) → String → Option JVal
  | [], _ => none
  | (k, v) :: rest, key => if k = key then some v else lookupKV rest key

/-- `d.get(key)` / `key in d` style access: `none` when the value is not an
object or the key is absent. -/
def JVal.get? : JVal → String → Option JVal
  | .obj kvs, k => lookupKV kvs k
  | _, _ => none

/-- Python `key in d`. -/
def JVal.hasKey (v : JVal) (k : String) : Bool := (v.get? k).isSome

/-- Python `d.get(key, default)`. -/
def JVal.getD (v : JVal) (k : String) (d : JVal) : JVal := (v.get? k).getD d

/-- Python truthiness of a value (`bool(v)`). -/
def JVal.truthy : JVal → Bool
  | .null => false
  | .bool b => b
  | .num q => q ≠ 0
  | .str s => s ≠ ""
  | .arr xs => !xs.isEmpty
  | .obj kvs => !kvs.isEmpty

/-- `d.get(key, default)` coerced to a rational; non-numeric values fall back
to the default (the claims only exercise numeric fields). -/
def getNumD (v : JVal) (k : String) (d : ℚ) : ℚ :=
  match v.get? k with
  | some (.num q) => q
  | _ => d

/-- `d.get(key, default)` coerced to a string; non-string values fall back to
the default (the claims only exercise string fields). -/
def getStrD (v : JVal) (k : String) (d : String) : String :=
  match v.get? k with
  | some (.str s) => s
  | _ => d

/-- Truthiness of `d.get(key, False)`, as used for `passes_threshold` flags. -/
def getTruthyD (v : JVal) (k : String) : Bool :=
  match v.get? k with
  | some w => w.truthy
  | none => false

/-- The keys of an object, in insertion order. -/
def keysOf : JVal → List String
  | .obj kvs => kvs.map Prod.fst
  | _ => []

/-- `Optional[str]` rendered as a JSON value. -/
def jstrOpt : Option String → JVal
  | some s => .str s
  | none => .null

/-! ## Rational helpers: Python `round` -/

/-- Round-half-to-even to the nearest integer, as Python `round` does. -/
def roundHalfEven (q : ℚ) : ℤ :=
  let f := ⌊q⌋
  let r := q - (f : ℚ)
  if r < 1 / 2 then f
  else if 1 / 2 < r then f + 1
  else if f % 2 = 0 then f else f + 1

/-- Python `round(x, 3)` on the exact rational value. -/
def pyRound3 (q : ℚ) : ℚ := (roundHalfEven (q * 1000) : ℚ) / 1000

/-! ## Base64 (`base64.b64encode` / `base64.b64decode`)

Bytes are naturals below 256.  `b64decode` models CPython's default
(`validate=False`) behaviour: characters outside the alphabet are discarded,
then decoding fails on incorrect padding (cleaned length not a multiple of
four, or a dangling single data character). -/

def b64Alphabet : List Char :=
  "ABCDEFGHIJKLMNOPQRSTUVWXYZabcdefghijklmnopqrstuvwxyz0123456789+/".toList

def b64IndexAux : List Char → ℕ → Char → Option ℕ
  | [], _, _ => none
  | a :: rest, i, c => if a = c then some i else b64IndexAux rest (i + 1) c

/-- Position of a character in the base64 alphabet. -/
def b64Index (c : Char) : Option ℕ := b64IndexAux b64Alphabet 0 c

def isB64Char (c : Char) : Bool := (b64Index c).isSome

/-- Repack a stream of 6-bit groups into 8-bit bytes (decoding direction). -/
def sextetsToBytes : List ℕ → List ℕ
  | a :: b :: c :: d :: rest =>
      (a * 4 + b / 16) :: ((b % 16) * 16 + c / 4) :: ((c % 4) * 64 + d) ::
        sextetsToBytes rest
  | [a, b, c] => [a * 4 + b / 16, (b % 16) * 16 + c / 4]
  | [a, b] => [a * 4 + b / 16]
  | _ => []

/-- Repack a stream of bytes into 6-bit groups (encoding direction). -/
def bytesToSextets : List ℕ → List ℕ
  | a :: b :: c :: rest =>
      (a / 4) :: ((a % 4) * 16 + b / 16) :: ((b % 16) * 4 + c / 64) :: (c % 64) ::
        bytesToSextets rest
  | [a, b] => [a / 4, (a % 4) * 16 + b / 16, (b % 16) * 4]
  | [a] => [a / 4, (a % 4) * 16]
  | [] => []

/-- `base64.b64encode(bs).decode()`. -/
def b64encode (bs : List ℕ) : String :=
  let sextets := bytesToSextets bs
  let chars := sextets.map (fun i => b64Alphabet.getD i 'A')
  String.mk (chars ++ List.replicate ((4 - sextets.length % 4) % 4) '=')

/-- `base64.b64decode(s)`: `none` models the `binascii.Error` raised on
invalid padding. -/
def b64decode (s : String) : Option (List ℕ) :=
  let cleaned := s.toList.filter (fun c => isB64Char c || c = '=')
  let data := s.toList.filter (fun c => isB64Char c)
  if cleaned.length % 4 = 0 ∧ data.length % 4 ≠ 1 then
    some (sextetsToBytes (data.filterMap b64Index))
  else none

/-! ## Image utilities (`mcp-server/utils/image_utils.py`) -/

/-- What `PIL.Image.open` reports about an image file. -/
structure ImageInfo where
  width : ℕ
  height : ℕ
  deriving DecidableEq, Repr

/-- Python `image_path.replace(".", "_resized.")` — the path computation in
`resize_image_if_needed`.  `str.replace` with a single-character pattern
rewrites every occurrence of that character. -/
def pyReplaceDot (s : String) : String :=
  String.mk (s.toList.flatMap (fun c => if c = '.' then "_resized.".toList else [c]))

/-- The path transformation the specification describes: insert `_resized`
immediately before the last dot of the path, leaving every other character
(including earlier dots) unchanged; the path itself when it has no dot. -/
def insertBeforeLastDot (s : String) : String :=
  let rev := s.toList.reverse
  let suffixRev := rev.takeWhile (fun c => c ≠ '.')
  match rev.dropWhile (fun c => c ≠ '.') with
  | [] => s
  | _ :: beforeRev =>
      String.mk (beforeRev.reverse ++ "_resized".toList ++ '.' :: suffixRev.reverse)

/-- `resize_image_if_needed(image_path, max_size)`: returns the path handed
back to the caller together with the path the downsampled image was saved to
(`none` when nothing was written).  `openImage` models `PIL.Image.open`
(`none` = the open raises, in which case the original path is returned). -/
def resize_image_if_needed (openImage : String → Option ImageInfo)
    (image_path : String) (maxW maxH : ℕ) : String × Option String :=
  match openImage image_path with
  | none => (image_path, none)
  | some img =>
      if img.width ≤ maxW ∧ img.height ≤ maxH then (image_path, none)
      else (pyReplaceDot image_path, some (pyReplaceDot image_path))

/-! ## Triage router (`agent-server/api/routers/triage.py`)

The handler state is the temp directory: a map from path to file bytes.
`tmpName` stands for the random name `tempfile.NamedTemporaryFile` picks
(fresh, `.jpg`-suffixed).  FastAPI `HTTPException` and any other exception are
the two kinds of `PyExc`; crucially, `fastapi.HTTPException` derives from
`Exception`, so a bare `except Exception` catches it. -/

/-- A raised Python exception: either `fastapi.HTTPException(status, detail)`
or any other exception rendered by its message. -/
inductive PyExc where
  | http (status : ℕ) (detail : String)
  | other (msg : String)
  deriving DecidableEq, Repr

/-- `str(e)`: Starlette renders `HTTPException` as `"<status>: <detail>"`;
other exceptions render as their message. -/
def strOfExc : PyExc → String
  | .http s d => toString s ++ ": " ++ d
  | .other m => m

/-- The temp-directory file system: path to byte contents. -/
def FS : Type := String → Option (List ℕ)

/-- Write (or overwrite) a file. -/
def FS.write (fs : FS) (p : String) (bs : List ℕ) : FS :=
  fun q => if q = p then some bs else fs q

/-- `os.unlink` guarded by `os.path.exists`. -/
def FS.unlink (fs : FS) (p : String) : FS :=
  fun q => if q = p then none else fs q

/-- Detail of the 400 raised on undecodable base64 (the interpolated
exception text is abstracted). -/
def invalidB64Detail : String := "Invalid base64 image data: Incorrect padding"

/-- `save_temp_image(image_data, is_base64)`: `NamedTemporaryFile(delete=False,
suffix=.jpg)` creates the file first; the base64 branch then writes the decoded
bytes or raises a 400 (leaving the file empty on disk); the URL branch raises
a 400 directly (file also already created).  Returns the raised-or-returned
value together with the resulting file system. -/
def save_temp_image (fs : FS) (tmpName : String) (image_data : String)
    (is_base64 : Bool) : Except PyExc String × FS :=
  if is_base64 then
    match b64decode image_data with
    | some bytes => (.ok tmpName, fs.write tmpName bytes)
    | none => (.error (.http 400 invalidB64Detail), fs.write tmpName [])
  else
    (.error (.http 400 "URL image processing not implemented in demo"),
      fs.write tmpName [])

/-- Outcome of `await client.classify_photo(image_path, job_context)`:
either the decoded tool result or a raised transport/tool exception. -/
inductive McpOutcome where
  | result (r : JVal)
  | exn (msg : String)

/-- `PhotoClassificationRequest` (pydantic): only the fields the handler
reads; `job_type` is never consulted by `classify_photo`. -/
structure PhotoClassificationRequest where
  image_url : Option String
  image_base64 : Option String
  job_context : Option String

/-- Python truthiness of an `Optional[str]` field (`if request.image_base64:`). -/
def optTruthy : Option String → Bool
  | some s => s ≠ ""
  | none => false

/-- Response envelope of the classify endpoint: status field of `StatusEnum`,
message, and optional data. -/
structure PhotoClassificationResponse where
  status : String
  message : String
  data : Option JVal

/-- Rendering of `result["error"]` inside the f-string of the error message
(string payloads only; the claims never inspect this text). -/
def errTextOf (r : JVal) : String :=
  match r.get? "error" with
  | some (.str s) => s
  | _ => ""

/-- The body of `classify_photo`'s `try:` block.  Returns the response or the
exception escaping the block, with the resulting temp-directory state. -/
def classify_photo_try (req : PhotoClassificationRequest) (fs : FS)
    (tmpName : String) (mcp : McpOutcome) :
    Except PyExc PhotoClassificationResponse × FS :=
  if optTruthy req.image_base64 then
    match save_temp_image fs tmpName (req.image_base64.getD "") true with
    | (.error e, fs1) => (.error e, fs1)
    | (.ok image_path, fs1) =>
      match mcp with
      | .exn m => (.error (.other m), fs1)
      | .result r =>
          let fs2 := fs1.unlink image_path
          if r.hasKey "error" then
            (.ok ⟨"error", "Classification failed: " ++ errTextOf r, none⟩, fs2)
          else
            (.ok ⟨"success", "Photo classified successfully", some r⟩, fs2)
  else if optTruthy req.image_url then
    (.error (.http 400 "URL image processing not implemented in demo"), fs)
  else
    (.error (.http 400 "Either image_url or image_base64 must be provided"), fs)

/-- `classify_photo`: the `try:` body wrapped in
`except Exception as e: raise HTTPException(status_code=500, detail=str(e))`.
Since `HTTPException` is an `Exception`, the handler's own 400s are caught
here too and re-raised as 500s. -/
def classify_photo (req : PhotoClassificationRequest) (fs : FS)
    (tmpName : String) (mcp : McpOutcome) :
    Except PyExc PhotoClassificationResponse × FS :=
  match classify_photo_try req fs tmpName mcp with
  | (.ok r, fs1) => (.ok r, fs1)
  | (.error e, fs1) => (.error (.http 500 (strOfExc e)), fs1)

/-- HTTP status of the endpoint outcome: 200 for a returned response, the
carried status for a raised `HTTPException`, 500 for any other escape. -/
def httpStatus : Except PyExc PhotoClassificationResponse → ℕ
  | .ok _ => 200
  | .error (.http s _) => s
  | .error (.other _) => 500

/-! ## Batch processor tool (`mcp-server/tools/batch_processor.py`)

Python subscript access `d[key]` raises `KeyError` when the key is absent;
that is modelled by `getItem` in the `Except String` monad (the message is the
missing key, standing for `str(KeyError(key))`).  The per-image classification
and quality calls are external (`asyncio.gather(..., return_exceptions=True)`)
and enter as `SubOutcome` oracles: either the awaited dict or a raised
exception, which `process` wraps as an in-band error dict. -/

/-- Message carried by a modelled `KeyError`. -/
def keyErrorMsg (k : String) : String := "KeyError: " ++ k

/-- Python `d[key]`: raises `KeyError` when the key is missing. -/
def getItem (v : JVal) (k : String) : Except String JVal :=
  match v.get? k with
  | some x => .ok x
  | none => .error (keyErrorMsg k)

/-- A Python list comprehension with a possibly-raising filter. -/
def filterE (p : JVal → Except String Bool) : List JVal → Except String (List JVal)
  | [] => .ok []
  | x :: xs => do
      let b ← p x
      let rest ← filterE p xs
      pure (if b then x :: rest else rest)

/-- `sum(1 for x in xs if p(x))` with a possibly-raising predicate. -/
def countE (p : JVal → Except String Bool) (xs : List JVal) : Except String ℕ :=
  (filterE p xs).map List.length

/-- Insertion-ordered histogram update
(`d[k] = d.get(k, 0) + 1` on a Python dict). -/
def histAdd : List (String × ℕ) → String → List (String × ℕ)
  | [], c => [(c, 1)]
  | (k, n) :: rest, c =>
      if k = c then (k, n + 1) :: rest else (k, n) :: histAdd rest c

/-- The `relevance_weight` dict lookup with default `0.7`
(`relevance_weight.get(relevance, 0.7)`); the looked-up key is the value of
`classification.get("classification", {}).get("relevance", "medium")`. -/
def relevance_weight : JVal → ℚ
  | .str "high" => 1
  | .str "medium" => 7 / 10
  | .str "low" => 3 / 10
  | _ => 7 / 10

/-- `BatchProcessorTool._calculate_combined_score(classification, quality)`. -/
def calculate_combined_score (classification quality : JVal) : ℚ :=
  if classification.hasKey "error" || quality.hasKey "error" then 0
  else
    let confidence := getNumD (classification.getD "classification" (.obj [])) "confidence" (1 / 2)
    let quality_score := getNumD quality "quality_score" (1 / 2)
    let relevance := (classification.getD "classification" (.obj [])).get? "relevance"
    let relevance_multiplier := relevance_weight (relevance.getD (.str "medium"))
    pyRound3 ((confidence * (2 / 5) + quality_score * (3 / 5)) * relevance_multiplier)

/-- `BatchProcessorTool._get_batch_recommendations(results)`.  The
`low_relevance` and `uncategorized` comprehensions subscript
`r["classification"]["classification"]` without guarding for an error map, so
they raise `KeyError` whenever some entry's classification sub-result is
`{error: ...}`. -/
def get_batch_recommendations (results : List JVal) : Except String (List String) := do
  let quality_fails ← filterE (fun r => do
      let qa ← getItem r "quality_analysis"
      pure (!(getTruthyD qa "passes_threshold"))) results
  let recs1 := if quality_fails.length > 0 then
      [toString quality_fails.length ++ " images failed quality checks and should be retaken"]
    else []
  let low_relevance ← filterE (fun r => do
      let c ← getItem r "classification"
      let cc ← getItem c "classification"
      pure (match cc.get? "relevance" with
            | some (.str s) => s = "low"
            | _ => false)) results
  let recs2 := if low_relevance.length > 0 then
      [toString low_relevance.length ++ " images have low job relevance"]
    else []
  let uncategorized ← filterE (fun r => do
      let c ← getItem r "classification"
      let cc ← getItem c "classification"
      pure (match cc.get? "category" with
            | some (.str s) => s = "other"
            | _ => false)) results
  let recs3 := if uncategorized.length > 0 then
      [toString uncategorized.length ++ " images could not be properly categorized"]
    else []
  pure (recs1 ++ recs2 ++ recs3)

/-- One pass of the `categories` / `quality_grades` histogram loop of
`_generate_batch_summary`, guarded by the `"error" not in ...` checks. -/
def summaryHistStep (hists : List (String × ℕ) × List (String × ℕ)) (r : JVal) :
    Except String (List (String × ℕ) × List (String × ℕ)) := do
  let c ← getItem r "classification"
  let cats ←
    if c.hasKey "error" then pure hists.1
    else do
      let cc ← getItem c "classification"
      pure (histAdd hists.1 (getStrD cc "category" "unknown"))
  let qa ← getItem r "quality_analysis"
  let grades :=
    if qa.hasKey "error" then hists.2
    else histAdd hists.2 (getStrD qa "quality_grade" "unknown")
  pure (cats, grades)

/-- `BatchProcessorTool._generate_batch_summary(results)`. -/
def generate_batch_summary (results : List JVal) : Except String JVal := do
  let total := results.length
  if total = 0 then pure (.obj [("total", .num 0)])
  else do
    let successful ← countE (fun r => do
        let c ← getItem r "classification"
        let qa ← getItem r "quality_analysis"
        pure (!c.hasKey "error" && !qa.hasKey "error")) results
    let quality_passes ← countE (fun r => do
        let qa ← getItem r "quality_analysis"
        pure (getTruthyD qa "passes_threshold")) results
    let hists ← results.foldlM summaryHistStep ([], [])
    let scores ← results.mapM (fun r => do
        let s ← getItem r "combined_score"
        pure (match s with | .num q => q | _ => 0))
    let avg_combined_score := scores.sum / (total : ℚ)
    let recommendations ← get_batch_recommendations results
    pure (.obj [
      ("total", .num total),
      ("successful", .num successful),
      ("quality_passes", .num quality_passes),
      ("quality_pass_rate", .num ((quality_passes : ℚ) / (total : ℚ))),
      ("categories", .obj (hists.1.map (fun kv => (kv.1, JVal.num kv.2)))),
      ("quality_grades", .obj (hists.2.map (fun kv => (kv.1, JVal.num kv.2)))),
      ("average_combined_score", .num (pyRound3 avg_combined_score)),
      ("recommendations", .arr (recommendations.map JVal.str))])

/-- Result of one slot of `asyncio.gather(..., return_exceptions=True)`:
either the awaited tool dict or the exception object. -/
inductive SubOutcome where
  | val (v : JVal)
  | exc (msg : String)

/-- The wrapping in `process`:
`x if not isinstance(x, Exception) else {"error": str(x)}`. -/
def wrapOutcome : SubOutcome → JVal
  | .val v => v
  | .exc m => .obj [("error", .str m)]

/-- The per-image `results` entries built by `process`, in input order. -/
def buildResults : List String → List SubOutcome → List SubOutcome → List JVal
  | p :: ps, c :: cs, q :: qs =>
      let classification := wrapOutcome c
      let quality := wrapOutcome q
      (JVal.obj [
        ("image_path", .str p),
        ("classification", classification),
        ("quality_analysis", quality),
        ("combined_score", .num (calculate_combined_score classification quality))])
        :: buildResults ps cs qs
  | _, _, _ => []

/-- `BatchProcessorTool.process(image_paths, job_context)`.  `validation` is
the outcome of `validate_batch_images` (on success the source returns the
input list itself); `classifications`/`qualities` are the gathered per-image
sub-results, one per validated path.  Any exception escaping the body is
caught and turned into `{error, image_paths}`. -/
def process (image_paths : List String) (job_context : Option String)
    (validation : Except String (List String))
    (classifications qualities : List SubOutcome) : JVal :=
  match (do
    let validated_paths ← validation
    let results := buildResults validated_paths classifications qualities
    let summary ← generate_batch_summary results
    pure (JVal.obj [
      ("total_images", .num validated_paths.length),
      ("processed_images", .num results.length),
      ("results", .arr results),
      ("summary", summary),
      ("job_context", jstrOpt job_context)]) : Except String JVal) with
  | .ok r => r
  | .error e => .obj [("error", .str e), ("image_paths", .arr (image_paths.map .str))]

/-! ## Validation utilities (`mcp-server/utils/validation.py`) and the
photo classifier tool (`mcp-server/tools/photo_classifier.py`) -/

/-- A file on disk as the validation layer sees it: its bytes and what
`PIL.Image.open` reports (dimensions, `format`, `mode`, whether `verify()`
succeeds).  EXIF propagation into metadata is not modelled (no claim touches
it). -/
structure SrcFile where
  bytes : List ℕ
  width : ℕ
  height : ℕ
  format : String
  mode : String
  verifies : Bool
  deriving DecidableEq, Repr

/-- `file_path.lower().split(".")[-1]`. -/
def fileExt (path : String) : String :=
  let lower := path.toList.map Char.toLower
  String.mk ((lower.splitOn '.').getLastD lower)

/-- The environment `validate_image_file` runs in: the file map (entries are
regular files), the configured size limit and format list, and the
`mimetypes.guess_type(...) startswith image/` table keyed by path. -/
structure ValidationEnv where
  fs : String → Option SrcFile
  maxImageSizeMB : ℕ
  supportedFormats : List String
  mimeIsImage : String → Bool

/-- `validate_image_file(file_path)`: each unmet condition raises a
`ValidationError` naming it; on success the opened file is handed back for
further use. -/
def validate_image_file (env : ValidationEnv) (path : String) : Except String SrcFile :=
  match env.fs path with
  | none => .error ("File does not exist: " ++ path)
  | some f =>
      -- source: `size / (1024*1024) > max_mb`; stated equivalently in integers
      if f.bytes.length > env.maxImageSizeMB * 1024 * 1024 then
        .error "File size exceeds maximum allowed size"
      else if !env.mimeIsImage path then
        .error ("File is not a valid image: " ++ path)
      else if !env.supportedFormats.contains (fileExt path) then
        .error ("Unsupported image format: " ++ fileExt path)
      else if !f.verifies then
        .error "Invalid or corrupted image file"
      else .ok f

/-- `get_image_metadata(image_path)` on a successfully opened image. -/
def get_image_metadata (f : SrcFile) : JVal :=
  .obj [
    ("format", .str f.format),
    ("mode", .str f.mode),
    ("size", .arr [.num f.width, .num f.height]),
    ("width", .num f.width),
    ("height", .num f.height)]

/-- The fixed, ordered category taxonomy of `PhotoClassifierTool`
(`photo_classifier.py` lines 16–26). -/
def categories : List String := [
  "equipment_photo",
  "before_work",
  "during_work",
  "after_work",
  "damage_assessment",
  "safety_documentation",
  "material_inventory",
  "environmental_conditions",
  "other"]

/-- Modelled from the spec: the canonical, model-free
`PhotoClassifierTool.classify(image_path, job_context)` of §4.16 is not
present under `src/` — `src/mcp-server/tools/photo_classifier.py` holds the
superseded revision that calls a vision model — while its callers
(`agent-server/nodes/classification.py`) consume exactly this contract
(`image_data`, `categories`, `ready_for_llm_analysis`).  Per the spec it
validates the file, resizes if oversized, base64-encodes the (possibly
resized) bytes and returns
`{image_path, image_data, metadata, job_context, categories,
ready_for_llm_analysis: true}`, with `{error, image_path}` on any failure;
it performs no semantic classification.  `resizedBytes` models the bytes of
the downsampled file written by `resize_image_if_needed`. -/
def canonicalClassify (env : ValidationEnv) (resizedBytes : List ℕ)
    (image_path : String) (job_context : Option String) : JVal :=
  match validate_image_file env image_path with
  | .error e => .obj [("error", .str e), ("image_path", .str image_path)]
  | .ok f =>
      let resized := resize_image_if_needed
        (fun p => (env.fs p).map (fun g => ⟨g.width, g.height⟩)) image_path 1024 1024
      let fileBytes := match resized.2 with
        | none => f.bytes
        | some _ => resizedBytes
      .obj [
        ("image_path", .str image_path),
        ("image_data", .str (b64encode fileBytes)),
        ("metadata", get_image_metadata f),
        ("job_context", jstrOpt job_context),
        ("categories", .arr (categories.map JVal.str)),
        ("ready_for_llm_analysis", .bool true)]

/-! ## Feedback generator tool (`mcp-server/tools/feedback_generator.py`) -/

/-- Substring test (`needle in haystack` on Python strings). -/
def containsSub (pat : List Char) : List Char → Bool
  | [] => pat.isEmpty
  | c :: rest => pat.isPrefixOf (c :: rest) || containsSub pat rest

/-- `"{:.1f}"`-style rendering of a rational (round half to even at one
decimal). -/
def fmtFixed1 (q : ℚ) : String :=
  let n := roundHalfEven (q * 10)
  (if n < 0 then "-" else "") ++ toString (n.natAbs / 10) ++ "." ++ toString (n.natAbs % 10)

/-- Python `str.title()` on a space-separated string. -/
def pyTitle (s : String) : String :=
  String.intercalate " " ((s.splitOn " ").map (fun w =>
    match w.toList with
    | [] => ""
    | c :: rest => String.mk (c.toUpper :: rest.map Char.toLower)))

/-- `category.replace("_", " ").title()`. -/
def titledCategory (s : String) : String :=
  pyTitle (String.mk (s.toList.map (fun c => if c = '_' then ' ' else c)))

/-- `FeedbackGeneratorTool._create_analysis_summary`.  The percentage term
divides by `len(classifications)`, so Python raises `ZeroDivisionError` on an
empty classification list; callers guard for that. -/
def create_analysis_summary (classifications quality_analyses : List JVal) : String :=
  let total := classifications.length
  let quality_passes :=
    (quality_analyses.filter (fun qa => getTruthyD qa "passes_threshold")).length
  let step := fun (acc : List (String × ℕ) × List String) (ic : ℕ × JVal) =>
    if ic.2.hasKey "classification" then
      let cc := ic.2.getD "classification" (.obj [])
      let cats := histAdd acc.1 (getStrD cc "category" "unknown")
      let issues :=
        match quality_analyses.get? ic.1 with
        | some qa =>
            if getTruthyD qa "passes_threshold" then acc.2
            else acc.2 ++ ["Image " ++ toString (ic.1 + 1) ++ ": " ++
              getStrD qa "quality_grade" "poor" ++ " quality"]
        | none => acc.2
      (cats, issues)
    else acc
  let folded := classifications.enum.foldl step ([], [])
  "Total Images: " ++ toString total ++ "\n" ++
  "Quality Pass Rate: " ++ toString quality_passes ++ "/" ++ toString total ++
    " (" ++ fmtFixed1 ((quality_passes : ℚ) / (total : ℚ) * 100) ++ "%)\n\n" ++
  "Categories Distribution:\n" ++
  String.intercalate "\n" (folded.1.map (fun kv => "- " ++ kv.1 ++ ": " ++ toString kv.2)) ++
  "\n\nQuality Issues:\n" ++
  (if folded.2.isEmpty then "No major quality issues"
   else String.intercalate "\n" folded.2)

/-- `FeedbackGeneratorTool._generate_template_feedback`. -/
def generate_template_feedback (classifications quality_analyses : List JVal) : String :=
  let total := classifications.length
  let quality_passes :=
    (quality_analyses.filter (fun qa => getTruthyD qa "passes_threshold")).length
  let quality_fails := total - quality_passes
  let parts1 := ["Photo Documentation Analysis Complete",
                 "Total photos analyzed: " ++ toString total]
  let parts2 :=
    if quality_passes = total then
      ["✅ All photos meet quality standards - excellent work!"]
    else if (quality_passes : ℚ) > (total : ℚ) * (7 / 10) then
      ["✅ Most photos meet quality standards (" ++ toString quality_passes ++
         "/" ++ toString total ++ ")",
       "⚠️  " ++ toString quality_fails ++ " photos need attention"]
    else
      ["⚠️  " ++ toString quality_fails ++ " photos failed quality checks",
       "📸 Consider retaking photos with better lighting and focus"]
  let cats := classifications.foldl (fun acc c =>
    if c.hasKey "classification" then
      histAdd acc (getStrD (c.getD "classification" (.obj [])) "category" "unknown")
    else acc) []
  let parts3 :=
    if !cats.isEmpty then
      "\nPhoto Categories:" ::
        cats.map (fun kv => "- " ++ titledCategory kv.1 ++ ": " ++ toString kv.2)
    else []
  let parts4 :=
    if quality_fails > 0 then
      ["\nRecommendations:",
       "- Ensure proper lighting when taking photos",
       "- Hold camera steady to avoid blur",
       "- Take multiple shots of important areas",
       "- Review photos before leaving the site"]
    else []
  String.intercalate "\n" (parts1 ++ parts2 ++ parts3 ++ parts4)

def actionKeywords : List String := ["retake", "improve", "consider", "ensure", "review"]

def bannerMarkers : List String := ["✅", "⚠️", "📸", "#", "-"]

/-- `FeedbackGeneratorTool._extract_actionable_items(feedback)`. -/
def extract_actionable_items (feedback : String) : List String :=
  let step := fun (acc : List String) (rawLine : String) =>
    let line := rawLine.trim
    if actionKeywords.any (fun k => containsSub k.toList line.toLower.toList) then
      if line ≠ "" && !(bannerMarkers.any (fun m => line.startsWith m)) then
        acc ++ [line]
      else if line.startsWith "- " then acc ++ [line.drop 2]
      else acc
    else acc
  ((feedback.splitOn "\n").foldl step []).take 5

/-- `FeedbackGeneratorTool._determine_priority_level`. -/
def determine_priority_level (classifications quality_analyses : List JVal) : String :=
  if classifications.isEmpty || quality_analyses.isEmpty then "medium"
  else
    let quality_fails :=
      (quality_analyses.filter (fun qa => !(getTruthyD qa "passes_threshold"))).length
    let fail_rate : ℚ := (quality_fails : ℚ) / (quality_analyses.length : ℚ)
    if fail_rate > 1 / 2 then "high"
    else if fail_rate > 1 / 5 then "medium"
    else "low"

/-- Modelled from the spec: the canonical, model-free
`FeedbackGeneratorTool.generate(classification_results, quality_results)` of
§4.19 is not present under `src/` — `src/mcp-server/tools/feedback_generator.py`
holds the superseded revision that calls a language model and omits the
`analysis_summary` key — while its caller (`agent-server/nodes/feedback.py`)
consumes `analysis_summary`.  Per the spec it assembles the template narrative
and the machine-readable analysis summary (both helper computations are in
`src/`) and returns
`{feedback, analysis_summary, total_images_analyzed, actionable_items,
priority_level}`; any exception — the `ZeroDivisionError` the summary raises
on an empty classification list — is caught by the tool convention and
returned as `{error}`. -/
def canonicalGenerate (classification_results quality_results : List JVal) : JVal :=
  if classification_results.isEmpty then
    .obj [("error", .str "division by zero")]
  else
    let feedback := generate_template_feedback classification_results quality_results
    .obj [
      ("feedback", .str feedback),
      ("analysis_summary", .str (create_analysis_summary classification_results quality_results)),
      ("total_images_analyzed", .num classification_results.length),
      ("actionable_items", .arr ((extract_actionable_items feedback).map JVal.str)),
      ("priority_level", .str (determine_priority_level classification_results quality_results))]

/-! ## Workflow state, nodes and conditions
(`agent-server/models/state.py`, `nodes/*.py`, `workflow/conditions.py`,
`workflow/builder.py`) -/

/-- The settings fields the workflow consults
(`config/settings.py`: `image_quality_threshold` default `0.7`,
`reflection_enabled` default `true`). -/
structure WSettings where
  image_quality_threshold : ℚ
  reflection_enabled : Bool

/-- `TriageState` (`models/state.py`); messages are modelled by their
content strings. -/
structure TriageState where
  messages : List String
  image_paths : List String
  job_context : Option String
  current_attempt : ℕ
  max_attempts : ℕ
  raw_photo_data : Option (List JVal)
  quality_results : Option (List JVal)
  analysis_results : Option JVal
  quality_issues : List String
  reflection_notes : List String
  final_feedback : Option String
  retry_needed : Bool
  completed : Bool

/-- `create_initial_state(image_paths, job_context, max_attempts)`. -/
def create_initial_state (image_paths : List String) (job_context : Option String)
    (max_attempts : ℕ) : TriageState where
  messages := ["Analyze " ++ toString image_paths.length ++ " photos for job triage"]
  image_paths := image_paths
  job_context := job_context
  current_attempt := 1
  max_attempts := max_attempts
  raw_photo_data := none
  quality_results := none
  analysis_results := none
  quality_issues := []
  reflection_notes := []
  final_feedback := none
  retry_needed := false
  completed := false

/-- Python truthiness of `state["analysis_results"]` (`None` and the empty
dict are falsy). -/
def analysisFalsy : Option JVal → Bool
  | none => true
  | some v => !v.truthy

/-- `"{:.2%}"`-style rendering of a rational. -/
def fmtPct2 (q : ℚ) : String :=
  let n := roundHalfEven (q * 10000)
  (if n < 0 then "-" else "") ++ toString (n.natAbs / 100) ++ "." ++
    (if n.natAbs % 100 < 10 then "0" else "") ++ toString (n.natAbs % 100) ++ "%"

/-- `"{:.3f}"`-style rendering of a rational. -/
def fmtFixed3 (q : ℚ) : String :=
  let n := roundHalfEven (q * 1000)
  (if n < 0 then "-" else "") ++ toString (n.natAbs / 1000) ++ "." ++
    (if n.natAbs % 1000 < 10 then "00" else if n.natAbs % 1000 < 100 then "0" else "") ++
    toString (n.natAbs % 1000)

/-- Outcome of the MCP calls inside `analyze_photos`: per-image quality
results and classify-preparation results (one of each per image path), or a
raised exception. -/
inductive AnalyzeOutcome where
  | ok (quality_results photo_data : List JVal)
  | exc (msg : String)

/-- The `quality_issues` derivation in `analyze_photos`: one string per image
whose quality result does not pass its threshold. -/
def issuesOf : List String → List JVal → List String
  | p :: ps, q :: qs =>
      (if getTruthyD q "passes_threshold" then []
       else ["Image " ++ p ++ ": " ++ getStrD q "quality_grade" "poor" ++ " quality"]) ++
        issuesOf ps qs
  | _, _ => []

/-- `analyze_photos(state)` (`nodes/analysis.py`). -/
def analyze_photos (s : TriageState) (o : AnalyzeOutcome) : TriageState :=
  match o with
  | .exc m =>
      { s with messages := s.messages ++ ["Analysis failed: " ++ m],
               quality_issues := ["Analysis error: " ++ m] }
  | .ok qrs pds =>
      { s with raw_photo_data := some pds,
               quality_results := some qrs,
               messages := s.messages ++
                 ["Photo preprocessing completed for " ++
                   toString s.image_paths.length ++ " photos"],
               quality_issues := issuesOf s.image_paths qrs }

/-- Outcome of the LLM calls inside `classify_photos_with_llm`: the answers
for the non-error photo entries in order, or a raised exception. -/
inductive ClassifyOutcome where
  | ok (llm : List JVal)
  | exc (msg : String)

/-- The degraded classification synthesized for a photo entry that carries an
error. -/
def degradedClassification (p : JVal) : JVal :=
  .obj [
    ("category", .str "other"),
    ("confidence", .num 0),
    ("description", .str ("Error: " ++ getStrD p "error" "")),
    ("relevance", .str "low"),
    ("quality_flags", .arr [.str "processing_error"])]

/-- The classification list built by `classify_photos_with_llm`: degraded
entries for errored photos, LLM answers (consumed in order) otherwise. -/
def buildClassifications : List JVal → List JVal → List JVal
  | [], _ => []
  | p :: ps, llm =>
      if p.hasKey "error" then degradedClassification p :: buildClassifications ps llm
      else
        match llm with
        | a :: rest => a :: buildClassifications ps rest
        | [] => []

/-- The per-image `results` entries of `analysis_results`. -/
def combineResults : List JVal → List JVal → List JVal → List JVal
  | p :: ps, c :: cs, q :: qs =>
      (JVal.obj [
        ("image_path", .str (getStrD p "image_path" "")),
        ("classification", c),
        ("quality_analysis", q)]) :: combineResults ps cs qs
  | _, _, _ => []

/-- `create_summary(classifications, quality_results)` (`llm/services.py`). -/
def create_summary (classifications quality_results : List JVal) : JVal :=
  let total := classifications.length
  if total = 0 then .obj []
  else
    let quality_passes :=
      (quality_results.filter (fun qa => getTruthyD qa "passes_threshold")).length
    let cats := classifications.foldl
      (fun acc c => histAdd acc (getStrD c "category" "other")) []
    let avg_confidence :=
      (classifications.map (fun c => getNumD c "confidence" 0)).sum / (total : ℚ)
    let avg_quality_score :=
      (quality_results.map (fun qa => getNumD qa "combined_score" 0)).sum / (total : ℚ)
    .obj [
      ("total_images", .num total),
      ("quality_pass_rate", .num ((quality_passes : ℚ) / (total : ℚ))),
      ("categories", .obj (cats.map (fun kv => (kv.1, JVal.num kv.2)))),
      ("average_confidence", .num avg_confidence),
      ("average_combined_score", .num avg_quality_score)]

/-- `classify_photos_with_llm(state, llm_service)` (`nodes/classification.py`). -/
def classify_photos_with_llm (s : TriageState) (o : ClassifyOutcome) : TriageState :=
  match o with
  | .exc m =>
      { s with messages := s.messages ++ ["LLM classification failed: " ++ m],
               analysis_results := some (.obj [("error", .str m)]) }
  | .ok llm =>
      let photos := s.raw_photo_data.getD []
      let classifications := buildClassifications photos llm
      let qrs := s.quality_results.getD []
      { s with
          analysis_results := some (.obj [
            ("results", .arr (combineResults photos classifications qrs)),
            ("summary", create_summary classifications qrs)]),
          messages := s.messages ++
            ["LLM classification completed for " ++
              toString classifications.length ++ " photos"] }

/-- `reflect_on_results(state)` (`nodes/reflection.py` lines 16–56).  The
quality pass rate is read as
`results.get("summary", {}).get("quality_pass_rate", 0)` — default `0`. -/
def reflect_on_results (set : WSettings) (s : TriageState) : TriageState :=
  if analysisFalsy s.analysis_results then
    { s with reflection_notes := s.reflection_notes ++ ["No analysis results to reflect on"] }
  else
    let results := s.analysis_results.getD .null
    let quality_pass_rate := getNumD (results.getD "summary" (.obj [])) "quality_pass_rate" 0
    let notes1 :=
      if quality_pass_rate < set.image_quality_threshold then
        ["Low quality pass rate: " ++ fmtPct2 quality_pass_rate,
         "Many images may need to be retaken"]
      else []
    let cats := (results.getD "summary" (.obj [])).getD "categories" (.obj [])
    let notes2 :=
      if cats.hasKey "other" &&
          decide (getNumD cats "other" 0 > (s.image_paths.length : ℚ) * (3 / 10)) then
        ["Many images are uncategorized - may indicate unclear photo subjects"]
      else []
    let avg_score := getNumD (results.getD "summary" (.obj [])) "average_combined_score" 0
    let notes3 :=
      if avg_score < 1 / 2 then
        ["Low average combined score: " ++ fmtFixed3 avg_score,
         "Overall photo documentation quality needs improvement"]
      else []
    let reflection_notes := notes1 ++ notes2 ++ notes3
    let reflection_notes :=
      if reflection_notes.isEmpty then ["Analysis results look good overall"]
      else reflection_notes
    { s with
        reflection_notes := s.reflection_notes ++ reflection_notes,
        messages := s.messages ++
          ["Reflection completed with " ++ toString reflection_notes.length ++ " observations"],
        retry_needed := decide (quality_pass_rate < 1 / 2) &&
          decide (s.current_attempt < s.max_attempts) && set.reflection_enabled }

/-- `prepare_retry(state)` (`nodes/reflection.py` lines 59–76): increments
`current_attempt` and records up to the first three quality issues. -/
def prepare_retry (s : TriageState) : TriageState :=
  let attempt := s.current_attempt + 1
  { s with
      current_attempt := attempt,
      reflection_notes := s.reflection_notes ++
        (("Retry attempt " ++ toString attempt ++ " due to quality issues:") ::
          s.quality_issues.take 3),
      messages := s.messages ++ ["Preparing retry attempt " ++ toString attempt] }

/-- Outcome of the MCP feedback call and the LLM prose call inside
`generate_final_feedback`, or a raised exception. -/
inductive FeedbackOutcome where
  | ok (llm_feedback : String)
  | exc (msg : String)

/-- `_enhance_feedback_with_reflection(base, notes)` (`nodes/feedback.py`);
the bullet is the literal byte sequence appearing in the source. -/
def enhance_feedback_with_reflection (base : String) (notes : List String) : String :=
  if notes.isEmpty then base
  else
    base ++ "\n\nAdditional Insights:\n" ++
      String.join ((notes.drop (notes.length - 3)).map (fun n => "â€¢ " ++ n ++ "\n"))

/-- `generate_final_feedback(state, llm_service)` (`nodes/feedback.py`):
with a `results` list present, the MCP template feedback and the LLM prose are
obtained (external — `o` carries the prose); otherwise a fixed string is
stored.  `completed` is set on both non-raising paths; on an exception only
`final_feedback` is written. -/
def generate_final_feedback (s : TriageState) (o : FeedbackOutcome) : TriageState :=
  match o with
  | .exc m => { s with final_feedback := some ("Feedback generation failed: " ++ m) }
  | .ok llm_feedback =>
      if !analysisFalsy s.analysis_results &&
          (s.analysis_results.getD .null).hasKey "results" then
        { s with
            final_feedback :=
              some (enhance_feedback_with_reflection llm_feedback s.reflection_notes),
            completed := true,
            messages := s.messages ++ ["Final feedback generated successfully"] }
      else
        { s with
            final_feedback := some "Analysis could not be completed successfully.",
            completed := true,
            messages := s.messages ++ ["Final feedback generated successfully"] }

/-- `should_reflect(state)` (`workflow/conditions.py` lines 9–25).  The
quality pass rate here is read with default `1.0`. -/
def should_reflect (set : WSettings) (s : TriageState) : String :=
  if !set.reflection_enabled then "generate_feedback"
  else if analysisFalsy s.analysis_results then "generate_feedback"
  else
    let quality_issues_exist := s.quality_issues.length > 0
    let low_quality_rate :=
      getNumD ((s.analysis_results.getD .null).getD "summary" (.obj []))
        "quality_pass_rate" 1 < 7 / 10
    if quality_issues_exist || decide low_quality_rate then "reflect"
    else "generate_feedback"

/-- `should_retry(state)` (`workflow/conditions.py` lines 28–36). -/
def should_retry (s : TriageState) : String :=
  if !s.retry_needed then "generate_feedback"
  else if s.current_attempt ≥ s.max_attempts then "generate_feedback"
  else "retry"

/-! ## The compiled workflow graph (`workflow/builder.py`)

`build_workflow` wires START → analyze → classify_with_llm →
(should_reflect ? reflect : generate_feedback); reflect →
(should_retry ? retry : generate_feedback); retry → analyze;
generate_feedback → END.  A configuration is the node about to run together
with the current state; external node effects enter as oracle arguments of
the step relation. -/

/-- The named nodes of the graph, plus the END marker. -/
inductive NodeTag where
  | analyze | classify | reflect | retry | feedback | done
  deriving DecidableEq, Repr

/-- A workflow configuration: the node about to execute and the state. -/
structure Config where
  node : NodeTag
  state : TriageState

/-- The conditional edge out of `classify_with_llm`: the router maps
`"reflect"` to the reflect node and `"generate_feedback"` to the feedback
node. -/
def routeReflect (set : WSettings) (s : TriageState) : NodeTag :=
  if should_reflect set s = "reflect" then .reflect else .feedback

/-- The conditional edge out of `reflect`: `"retry"` to the retry node,
`"generate_feedback"` to the feedback node. -/
def routeRetry (s : TriageState) : NodeTag :=
  if should_retry s = "retry" then .retry else .feedback

/-- One step of the compiled workflow: run the node at the configuration and
move along its (possibly conditional) outgoing edge. -/
inductive Step (set : WSettings) : Config → Config → Prop where
  | analyze (s : TriageState) (o : AnalyzeOutcome) :
      Step set ⟨.analyze, s⟩ ⟨.classify, analyze_photos s o⟩
  | classify (s : TriageState) (o : ClassifyOutcome) :
      Step set ⟨.classify, s⟩
        ⟨routeReflect set (classify_photos_with_llm s o), classify_photos_with_llm s o⟩
  | reflect (s : TriageState) :
      Step set ⟨.reflect, s⟩
        ⟨routeRetry (reflect_on_results set s), reflect_on_results set s⟩
  | retry (s : TriageState) :
      Step set ⟨.retry, s⟩ ⟨.analyze, prepare_retry s⟩
  | feedback (s : TriageState) (o : FeedbackOutcome) :
      Step set ⟨.feedback, s⟩ ⟨.done, generate_final_feedback s o⟩

/-- Reachability in the workflow graph. -/
def Reach (set : WSettings) : Config → Config → Prop :=
  Relation.ReflTransGen (Step set)

/-- A finite run recorded as the list of configurations visited after the
head configuration. -/
inductive Trace (set : WSettings) : Config → List Config → Prop where
  | nil (c : Config) : Trace set c []
  | cons {c c' : Config} {l : List Config} :
      Step set c c' → Trace set c' l → Trace set c (c' :: l)

/-- Number of passes through the `analyze` node recorded in a run. -/
def countAnalyze (l : List Config) : ℕ :=
  (l.filter (fun c => c.node = NodeTag.analyze)).length

/-- The invariant carried by every reachable configuration: the attempt
counter never exceeds the maximum, strictly so at the retry node. -/
def Inv (c : Config) : Prop :=
  c.state.current_attempt ≤ c.state.max_attempts ∧
    (c.node = NodeTag.retry → c.state.current_attempt < c.state.max_attempts)

/-- Rank of a node inside one pass of the cycle (used by the termination
measure). -/
def nodeRank : NodeTag → ℕ
  | .analyze => 4
  | .classify => 3
  | .reflect => 2
  | .retry => 1
  | .feedback => 1
  | .done => 0

/-- Termination measure: five per remaining attempt plus the node rank. -/
def wfMeasure (c : Config) : ℕ :=
  5 * (c.state.max_attempts - c.state.current_attempt) + nodeRank c.node

/-! ## Theorems settling the claims -/

/-- The relevance multiplier exactly as the specification words it: `1.0` for
`high`, `0.3` for `low`, `0.7` for `medium` and for a missing or unrecognized
relevance value.  Stated over the raw `relevance` lookup so it can be compared
with the source computation (`...get("relevance", "medium")` followed by
`relevance_weight.get(..., 0.7)`). -/
def specRelevanceMultiplier : Option JVal → ℚ
  | some (.str s) => if s = "high" then 1 else if s = "low" then 3 / 10 else 7 / 10
  | _ => 7 / 10

/-- The source's two-stage lookup agrees with the specification's multiplier
table on every possible relevance value. -/
theorem relevance_weight_eq_spec (o : Option JVal) :
    relevance_weight (o.getD (.str "medium")) = specRelevanceMultiplier o := by
  cases o with
  | none => rfl
  | some v =>
    cases v with
    | str s =>
        by_cases h1 : s = "high"
        · simp [relevance_weight, specRelevanceMultiplier, h1]
        · by_cases h2 : s = "low"
          · simp [relevance_weight, specRelevanceMultiplier, h1, h2]
          · by_cases h3 : s = "medium" <;>
              simp [relevance_weight, specRelevanceMultiplier, h1, h2, h3]
    | null => rfl
    | bool b => rfl
    | num q => rfl
    | arr xs => rfl
    | obj kvs => rfl

/-- C7: the Batch Processor's combined score is `0` whenever either sub-result
carries an `error` key, and otherwise equals
`round((confidence·0.4 + quality_score·0.6)·relevance_multiplier, 3)` with the
multiplier `1.0`/`0.7`/`0.3` for `high`/`medium` (also missing or
unrecognized)/`low`; in particular confidence `0.9`, quality `0.8` gives
`0.84` with relevance `high` and `0.252` with relevance `low`. -/
theorem claim_C7_combined_score :
    (∀ cls q : JVal, (cls.hasKey "error" || q.hasKey "error") = true →
      calculate_combined_score cls q = 0) ∧
    (∀ (cls q : JVal) (c s : ℚ),
      cls.hasKey "error" = false → q.hasKey "error" = false →
      (cls.getD "classification" (.obj [])).get? "confidence" = some (.num c) →
      q.get? "quality_score" = some (.num s) →
      calculate_combined_score cls q =
        pyRound3 ((c * (2 / 5) + s * (3 / 5)) *
          specRelevanceMultiplier ((cls.getD "classification" (.obj [])).get? "relevance"))) ∧
    calculate_combined_score
      (.obj [("classification",
        .obj [("confidence", .num (9 / 10)), ("relevance", .str "high")])])
      (.obj [("quality_score", .num (8 / 10))]) = 84 / 100 ∧
    calculate_combined_score
      (.obj [("classification",
        .obj [("confidence", .num (9 / 10)), ("relevance", .str "low")])])
      (.obj [("quality_score", .num (8 / 10))]) = 252 / 1000 := by
  have hgen : ∀ (cls q : JVal) (c s : ℚ),
      cls.hasKey "error" = false → q.hasKey "error" = false →
      (cls.getD "classification" (.obj [])).get? "confidence" = some (.num c) →
      q.get? "quality_score" = some (.num s) →
      calculate_combined_score cls q =
        pyRound3 ((c * (2 / 5) + s * (3 / 5)) *
          specRelevanceMultiplier ((cls.getD "classification" (.obj [])).get? "relevance")) := by
    intro cls q c s hc hq hconf hqs
    rw [calculate_combined_score, if_neg (by simp [hc, hq]), ← relevance_weight_eq_spec]
    simp [getNumD, hconf, hqs]
  refine ⟨?_, hgen, ?_, ?_⟩
  · intro cls q h
    simp [calculate_combined_score, h]
  · rw [hgen (.obj [("classification",
        .obj [("confidence", .num (9 / 10)), ("relevance", .str "high")])])
        (.obj [("quality_score", .num (8 / 10))]) (9 / 10) (8 / 10) rfl rfl rfl rfl]
    have hrel : ((JVal.obj [("classification",
        JVal.obj [("confidence", JVal.num (9 / 10)), ("relevance", JVal.str "high")])]).getD
          "classification" (JVal.obj [])).get? "relevance" = some (.str "high") := rfl
    rw [hrel]
    norm_num [specRelevanceMultiplier, pyRound3, roundHalfEven]
  · rw [hgen (.obj [("classification",
        .obj [("confidence", .num (9 / 10)), ("relevance", .str "low")])])
        (.obj [("quality_score", .num (8 / 10))]) (9 / 10) (8 / 10) rfl rfl rfl rfl]
    have hrel : ((JVal.obj [("classification",
        JVal.obj [("confidence", JVal.num (9 / 10)), ("relevance", JVal.str "low")])]).getD
          "classification" (JVal.obj [])).get? "relevance" = some (.str "low") := rfl
    have hmul : specRelevanceMultiplier (some (.str "low")) = 3 / 10 := rfl
    rw [hrel, hmul]
    norm_num [pyRound3, roundHalfEven]

/-- C7 witness: the general formula applied to the concrete `0.9`-confidence,
`high`-relevance classification and `0.8` quality score. -/
theorem claim_C7_witness :
    calculate_combined_score
      (.obj [("classification",
        .obj [("confidence", .num (9 / 10)), ("relevance", .str "high")])])
      (.obj [("quality_score", .num (8 / 10))]) =
      pyRound3 ((9 / 10 * (2 / 5) + 8 / 10 * (3 / 5)) *
        specRelevanceMultiplier (some (.str "high"))) :=
  claim_C7_combined_score.2.1 _ _ (9 / 10) (8 / 10) rfl rfl rfl rfl

/-- C9: `save_temp_image` is not atomic on failure — for every undecodable
base64 payload it raises the 400 `HTTPException` only after
`NamedTemporaryFile(delete=False)` has created the temp file, so an empty
orphaned file remains on disk. -/
theorem claim_C9_orphan_temp_file (fs : FS) (tmpName s : String)
    (h : b64decode s = none) :
    (save_temp_image fs tmpName s true).1 = .error (.http 400 invalidB64Detail) ∧
    (save_temp_image fs tmpName s true).2 tmpName = some [] := by
  simp [save_temp_image, h, FS.write]

/-- C9 witness: the orphan-file property at the concrete invalid payload
`"abc"`. -/
theorem claim_C9_witness :
    b64decode "abc" = none ∧
    ((save_temp_image (fun _ => none) "/tmp/tmpx.jpg" "abc" true).1 =
        .error (.http 400 invalidB64Detail) ∧
      (save_temp_image (fun _ => none) "/tmp/tmpx.jpg" "abc" true).2 "/tmp/tmpx.jpg" =
        some []) :=
  ⟨by decide, claim_C9_orphan_temp_file _ _ _ (by decide)⟩

/-- C1: the claim says bad image input yields a 400, but `classify_photo`'s
blanket `except Exception` catches the handler's own `HTTPException(400)`s
(`fastapi.HTTPException` derives from `Exception`) and re-raises them as 500s:
with no image supplied, with a URL supplied, and with undecodable base64 the
endpoint responds 500. -/
theorem claim_C1_bad_input_maps_to_500 :
    httpStatus (classify_photo ⟨none, none, none⟩ (fun _ => none) "/tmp/t1.jpg"
      (.result (.obj []))).1 = 500 ∧
    httpStatus (classify_photo ⟨some "https://example.com/a.jpg", none, none⟩
      (fun _ => none) "/tmp/t1.jpg" (.result (.obj []))).1 = 500 ∧
    httpStatus (classify_photo ⟨none, some "abc", none⟩ (fun _ => none)
      "/tmp/t1.jpg" (.result (.obj []))).1 = 500 := by
  refine ⟨by decide, by decide, by decide⟩

/-- C4 counterexample: with valid base64 input (`"QUJD"`, decoding to bytes
`ABC`) and an MCP call that raises, the handler exits through the
`except`-500 path with the temp file still on disk — refuting the claim that
the temp file is deleted on every exit path. -/
theorem claim_C4_counterexample :
    (classify_photo ⟨none, some "QUJD", none⟩ (fun _ => none) "/tmp/c4.jpg"
      (.exn "MCP server unreachable")).2 "/tmp/c4.jpg" = some [65, 66, 67] ∧
    httpStatus (classify_photo ⟨none, some "QUJD", none⟩ (fun _ => none)
      "/tmp/c4.jpg" (.exn "MCP server unreachable")).1 = 500 := by
  refine ⟨by decide, by decide⟩

/-- C4 as amended: for valid base64 input the temp file is deleted on the
path where the MCP call returns (both the success envelope and the
declared-error envelope, since the unlink precedes the `error`-key check),
but on the path where the MCP call raises the handler re-raises a 500 without
any cleanup and the decoded temp file remains on disk. -/
theorem claim_C4_amended (fs : FS) (tmp : String) (req : PhotoClassificationRequest)
    (b : String) (bytes : List ℕ)
    (hb : req.image_base64 = some b) (hne : b ≠ "") (hdec : b64decode b = some bytes) :
    (∀ r : JVal, (classify_photo req fs tmp (.result r)).2 tmp = none) ∧
    (∀ m : String, (classify_photo req fs tmp (.exn m)).2 tmp = some bytes) := by
  have ht : optTruthy req.image_base64 = true := by simp [optTruthy, hb, hne]
  have hgetD : req.image_base64.getD "" = b := by simp [hb]
  constructor
  · intro r
    cases hk : r.hasKey "error" <;>
      simp [classify_photo, classify_photo_try, ht, save_temp_image, hgetD, hdec,
        hk, FS.unlink]
  · intro m
    simp [classify_photo, classify_photo_try, ht, save_temp_image, hgetD, hdec,
      FS.write]

/-- C4 witness: the amended deletion/leak behaviour at the concrete payload
`"QUJD"`, success result `{}` and exception `"boom"`. -/
theorem claim_C4_witness :
    (⟨none, some "QUJD", none⟩ : PhotoClassificationRequest).image_base64 = some "QUJD" ∧
    ("QUJD" : String) ≠ "" ∧
    b64decode "QUJD" = some [65, 66, 67] ∧
    (classify_photo ⟨none, some "QUJD", none⟩ (fun _ => none) "/tmp/w4.jpg"
      (.result (.obj []))).2 "/tmp/w4.jpg" = none ∧
    (classify_photo ⟨none, some "QUJD", none⟩ (fun _ => none) "/tmp/w4.jpg"
      (.exn "boom")).2 "/tmp/w4.jpg" = some [65, 66, 67] :=
  ⟨rfl, by decide, by decide,
    (claim_C4_amended (fun _ => none) "/tmp/w4.jpg" ⟨none, some "QUJD", none⟩
      "QUJD" [65, 66, 67] rfl (by decide) (by decide)).1 (.obj []),
    (claim_C4_amended (fun _ => none) "/tmp/w4.jpg" ⟨none, some "QUJD", none⟩
      "QUJD" [65, 66, 67] rfl (by decide) (by decide)).2 "boom"⟩

/-- `takeWhile`/`dropWhile` split of a list whose head segment satisfies the
predicate and whose next element does not. -/
theorem takeWhile_dropWhile_split {p : Char → Bool} (l : List Char)
    (hl : ∀ c ∈ l, p c = true) (x : Char) (hx : p x = false) (r : List Char) :
    (l ++ x :: r).takeWhile p = l ∧ (l ++ x :: r).dropWhile p = x :: r := by
  induction l with
  | nil => simp [List.takeWhile_cons, List.dropWhile_cons, hx]
  | cons a t ih =>
      have ha : p a = true := hl a (List.mem_cons_self a t)
      have ht : ∀ c ∈ t, p c = true := fun c hc => hl c (List.mem_cons_of_mem a hc)
      have ihh := ih ht
      simp [List.takeWhile_cons, List.dropWhile_cons, ha, ihh.1, ihh.2]

/-- Replacing every dot leaves a dot-free character list unchanged. -/
theorem flatMap_replaceDot_of_no_dot (l : List Char) (h : '.' ∉ l) :
    (l.flatMap (fun c => if c = '.' then "_resized.".toList else [c])) = l := by
  induction l with
  | nil => rfl
  | cons a t ih =>
      have ha : a ≠ '.' := fun hc => h (hc ▸ List.mem_cons_self a t)
      have ht : '.' ∉ t := fun hc => h (List.mem_cons_of_mem a hc)
      rw [List.flatMap_cons, if_neg ha, ih ht]
      rfl

/-- C8 counterexample: at the concrete multi-dot path `photo.final.jpg`
(opened successfully with dimensions 2000×1500, exceeding the 1024×1024 cap)
`resize_image_if_needed` returns `photo_resized.final_resized.jpg` — every dot
rewritten — not the last-dot-only form `photo.final_resized.jpg` the claim
requires. -/
theorem claim_C8_counterexample :
    (fun p => if p = "photo.final.jpg" then some (⟨2000, 1500⟩ : ImageInfo) else none)
        "photo.final.jpg" = some ⟨2000, 1500⟩ ∧
    ¬((2000 : ℕ) ≤ 1024 ∧ (1500 : ℕ) ≤ 1024) ∧
    (resize_image_if_needed
      (fun p => if p = "photo.final.jpg" then some ⟨2000, 1500⟩ else none)
      "photo.final.jpg" 1024 1024).1 = "photo_resized.final_resized.jpg" ∧
    insertBeforeLastDot "photo.final.jpg" = "photo.final_resized.jpg" ∧
    ("photo_resized.final_resized.jpg" : String) ≠ "photo.final_resized.jpg" := by
  refine ⟨by decide, by decide, by decide, by decide, by decide⟩

/-- C8 as amended: when the image opens and fits the cap the original path is
returned unchanged; when it exceeds the cap the saved and returned path is the
one obtained by rewriting **every** dot of the path to `_resized.`
(`str.replace(".", "_resized.")`), which coincides with inserting `_resized`
before the last dot exactly when the path contains at most one dot (shown here
for a path with a single dot separating two dot-free segments). -/
theorem claim_C8_amended (openImage : String → Option ImageInfo) (p : String)
    (mW mH : ℕ) (img : ImageInfo) (h : openImage p = some img) :
    (img.width ≤ mW ∧ img.height ≤ mH →
      resize_image_if_needed openImage p mW mH = (p, none)) ∧
    (¬(img.width ≤ mW ∧ img.height ≤ mH) →
      resize_image_if_needed openImage p mW mH =
        (pyReplaceDot p, some (pyReplaceDot p))) ∧
    (∀ a b : List Char, '.' ∉ a → '.' ∉ b →
      pyReplaceDot (String.mk (a ++ '.' :: b)) =
        insertBeforeLastDot (String.mk (a ++ '.' :: b))) := by
  refine ⟨?_, ?_, ?_⟩
  · intro hfit
    simp [resize_image_if_needed, h, hfit]
  · intro hbig
    simp [resize_image_if_needed, h, hbig]
  · intro a b ha hb
    have hsplit := takeWhile_dropWhile_split (p := fun c => decide (c ≠ '.'))
      b.reverse
      (by
        intro c hc
        have hcb : c ∈ b := List.mem_reverse.mp hc
        simp only [decide_eq_true_eq]
        exact fun hcd => hb (hcd ▸ hcb))
      '.' (by simp) a.reverse
    have hrev : (a ++ '.' :: b).reverse = b.reverse ++ '.' :: a.reverse := by
      simp [List.reverse_append]
    have hdot : ("_resized." : String).toList = ("_resized" : String).toList ++ ['.'] := rfl
    unfold pyReplaceDot insertBeforeLastDot
    rw [show (String.mk (a ++ '.' :: b)).toList = a ++ '.' :: b from rfl, hrev]
    dsimp only
    rw [hsplit.2, hsplit.1]
    dsimp only
    rw [List.flatMap_append, List.flatMap_cons, if_pos rfl,
      flatMap_replaceDot_of_no_dot a ha, flatMap_replaceDot_of_no_dot b hb,
      List.reverse_reverse, List.reverse_reverse, hdot]
    simp [List.append_assoc]

/-- C8 witness: the amended behaviour at the concrete oversized
`photo.final.jpg` and at a fitting image. -/
theorem claim_C8_witness :
    (fun p => if p = "photo.final.jpg" then some (⟨2000, 1500⟩ : ImageInfo) else none)
        "photo.final.jpg" = some ⟨2000, 1500⟩ ∧
    (¬((2000 : ℕ) ≤ 1024 ∧ (1500 : ℕ) ≤ 1024) →
      resize_image_if_needed
        (fun p => if p = "photo.final.jpg" then some ⟨2000, 1500⟩ else none)
        "photo.final.jpg" 1024 1024 =
        (pyReplaceDot "photo.final.jpg", some (pyReplaceDot "photo.final.jpg"))) :=
  ⟨by decide,
    (claim_C8_amended
      (fun p => if p = "photo.final.jpg" then some ⟨2000, 1500⟩ else none)
      "photo.final.jpg" 1024 1024 ⟨2000, 1500⟩ (by decide)).2.1⟩

/-- C10: for a state whose `analysis_results` is a non-empty dict with no
`summary` key (such as the `{error: ...}` map produced when classification
fails), `reflect_on_results` reads the quality pass rate with default `0` and
therefore sets `retry_needed` exactly when the attempt counter is below the
maximum and reflection is enabled, while `should_reflect` reads the same rate
with default `1.0` and routes to `reflect` only on recorded quality issues. -/
theorem claim_C10_reflect_error_triggers_retry (set : WSettings) (s : TriageState)
    (m : List (String × JVal)) (hm : s.analysis_results = some (.obj m))
    (hne : m ≠ []) (hsum : lookupKV m "summary" = none) :
    getNumD ((JVal.obj m).getD "summary" (.obj [])) "quality_pass_rate" 0 = 0 ∧
    getNumD ((JVal.obj m).getD "summary" (.obj [])) "quality_pass_rate" 1 = 1 ∧
    (reflect_on_results set s).retry_needed =
      (decide (s.current_attempt < s.max_attempts) && set.reflection_enabled) ∧
    should_reflect set s =
      (if set.reflection_enabled && !s.quality_issues.isEmpty then "reflect"
       else "generate_feedback") := by
  have hempty : m.isEmpty = false := by
    cases m with
    | nil => exact absurd rfl hne
    | cons a t => rfl
  have hfalsy' : analysisFalsy (some (JVal.obj m)) = false := by
    simp [analysisFalsy, JVal.truthy, hempty]
  have hfalsy : analysisFalsy s.analysis_results = false := by rw [hm]; exact hfalsy'
  have hrate0 : getNumD ((JVal.obj m).getD "summary" (.obj [])) "quality_pass_rate" 0 = 0 := by
    simp [getNumD, JVal.getD, JVal.get?, hsum, lookupKV]
  have hrate1 : getNumD ((JVal.obj m).getD "summary" (.obj [])) "quality_pass_rate" 1 = 1 := by
    simp [getNumD, JVal.getD, JVal.get?, hsum, lookupKV]
  refine ⟨hrate0, hrate1, ?_, ?_⟩
  · simp only [reflect_on_results, hfalsy, Bool.false_eq_true, if_false]
    rw [hm]
    dsimp only [Option.getD_some]
    rw [hrate0]
    rw [show decide ((0 : ℚ) < 1 / 2) = true from by norm_num]
    rw [Bool.true_and]
  · cases hen : set.reflection_enabled with
    | false => simp [should_reflect, hen]
    | true =>
        simp only [should_reflect, hen, Bool.not_true, Bool.false_eq_true, if_false,
          hfalsy, hm]
        dsimp only [Option.getD_some]
        rw [hrate1]
        rw [show decide ((1 : ℚ) < 7 / 10) = false from by norm_num]
        cases s.quality_issues <;> simp [hfalsy']

/-- A workflow state whose classification step failed: `analysis_results` is
the error map, quality issues were recorded, attempts 1 of 3. -/
def reflectStateEx : TriageState :=
  ⟨[], ["a.jpg"], none, 1, 3, none, none,
    some (.obj [("error", .str "classify blew up")]),
    ["Image a.jpg: poor quality"], [], none, false, false⟩

/-- C10 witness: the defaulting behaviour at the concrete error-map state. -/
theorem claim_C10_witness :
    reflectStateEx.analysis_results =
      some (.obj [("error", .str "classify blew up")]) ∧
    ([("error", JVal.str "classify blew up")] : List (String × JVal)) ≠ [] ∧
    lookupKV [("error", JVal.str "classify blew up")] "summary" = none ∧
    (reflect_on_results ⟨7 / 10, true⟩ reflectStateEx).retry_needed =
      (decide (reflectStateEx.current_attempt < reflectStateEx.max_attempts) &&
        (⟨7 / 10, true⟩ : WSettings).reflection_enabled) :=
  ⟨rfl, List.cons_ne_nil _ _, rfl,
    (claim_C10_reflect_error_triggers_retry ⟨7 / 10, true⟩ reflectStateEx _ rfl
      (List.cons_ne_nil _ _) rfl).2.2.1⟩

/-- C3: the claim says the Batch Processor never aborts on a per-item failure,
but when an image's classification sub-result is an error map the
recommendation pass subscripts `r["classification"]["classification"]`
without a guard, raises `KeyError`, and `process` returns the top-level
`{error, image_paths}` map with no `results` or `summary`; the same batch
with only the quality sub-result errored does return the full structure. -/
theorem claim_C3_batch_aborts_on_classification_error :
    process ["site.jpg"] none (.ok ["site.jpg"])
      [.val (.obj [("error", .str "classification failed"),
        ("image_path", .str "site.jpg")])]
      [.val (.obj [("image_path", .str "site.jpg"),
        ("quality_score", .num (9 / 10)), ("passes_threshold", .bool true),
        ("quality_grade", .str "excellent")])] =
      .obj [("error", .str (keyErrorMsg "classification")),
            ("image_paths", .arr [.str "site.jpg"])] ∧
    (process ["site.jpg"] none (.ok ["site.jpg"])
      [.val (.obj [("error", .str "classification failed"),
        ("image_path", .str "site.jpg")])]
      [.val (.obj [("image_path", .str "site.jpg"),
        ("quality_score", .num (9 / 10)), ("passes_threshold", .bool true),
        ("quality_grade", .str "excellent")])]).hasKey "results" = false ∧
    keysOf (process ["site.jpg"] none (.ok ["site.jpg"])
      [.val (.obj [("image_path", .str "site.jpg"),
        ("classification", .obj [("category", .str "equipment_photo"),
          ("confidence", .num (8 / 10)), ("relevance", .str "high")])])]
      [.exc "quality analyzer crashed"]) =
      ["total_images", "processed_images", "results", "summary", "job_context"] := by
  refine ⟨rfl, rfl, rfl⟩

/-- C2: whenever validation succeeds, the canonical Photo Classifier Tool's
`classify` returns a map with exactly the keys `image_path`, `image_data`
(the base64 encoding of the possibly-resized file bytes), `metadata`,
`job_context`, `categories` (the fixed ordered 9-entry taxonomy) and
`ready_for_llm_analysis = true`, and carries no classification of its own. -/
theorem claim_C2_canonical_classifier_contract (env : ValidationEnv)
    (rb : List ℕ) (path : String) (jc : Option String) (f : SrcFile)
    (hv : validate_image_file env path = .ok f) :
    keysOf (canonicalClassify env rb path jc) =
      ["image_path", "image_data", "metadata", "job_context", "categories",
       "ready_for_llm_analysis"] ∧
    (canonicalClassify env rb path jc).get? "image_data" =
      some (.str (b64encode
        (match (resize_image_if_needed
            (fun p => (env.fs p).map (fun g => ⟨g.width, g.height⟩))
            path 1024 1024).2 with
          | none => f.bytes
          | some _ => rb))) ∧
    (canonicalClassify env rb path jc).get? "categories" =
      some (.arr ((["equipment_photo", "before_work", "during_work", "after_work",
        "damage_assessment", "safety_documentation", "material_inventory",
        "environmental_conditions", "other"] : List String).map JVal.str)) ∧
    (canonicalClassify env rb path jc).get? "ready_for_llm_analysis" =
      some (.bool true) ∧
    (canonicalClassify env rb path jc).hasKey "classification" = false ∧
    (canonicalClassify env rb path jc).hasKey "confidence_score" = false := by
  unfold canonicalClassify
  rw [hv]
  dsimp only
  cases hres : (resize_image_if_needed
      (fun p => (env.fs p).map (fun g => ⟨g.width, g.height⟩)) path 1024 1024).2 with
  | none => exact ⟨rfl, rfl, rfl, rfl, rfl, rfl⟩
  | some w => exact ⟨rfl, rfl, rfl, rfl, rfl, rfl⟩

/-- A one-file environment for the classifier witness: `a.jpg` is a small,
valid 800×600 image. -/
def classifierEnvEx : ValidationEnv :=
  ⟨fun p => if p = "a.jpg" then some ⟨[1, 2, 3], 800, 600, "JPEG", "RGB", true⟩ else none,
    10, ["jpg", "jpeg", "png", "bmp", "tiff"], fun _ => true⟩

/-- C2 witness: the canonical contract at the concrete validated file. -/
theorem claim_C2_witness :
    validate_image_file classifierEnvEx "a.jpg" =
      .ok ⟨[1, 2, 3], 800, 600, "JPEG", "RGB", true⟩ ∧
    keysOf (canonicalClassify classifierEnvEx [] "a.jpg" none) =
      ["image_path", "image_data", "metadata", "job_context", "categories",
       "ready_for_llm_analysis"] :=
  ⟨rfl,
    (claim_C2_canonical_classifier_contract classifierEnvEx [] "a.jpg" none
      ⟨[1, 2, 3], 800, 600, "JPEG", "RGB", true⟩ rfl).1⟩

/-- C6: whenever the canonical Feedback Generator's `generate` succeeds (its
only failure is the division by zero on an empty classification list), the
result has exactly the keys `feedback`, `analysis_summary`,
`total_images_analyzed`, `actionable_items` (at most 5 strings) and
`priority_level` (one of low/medium/high); in particular the machine-readable
analysis summary string is always present. -/
theorem claim_C6_feedback_contract (cls qs : List JVal) (hne : cls ≠ []) :
    keysOf (canonicalGenerate cls qs) =
      ["feedback", "analysis_summary", "total_images_analyzed",
       "actionable_items", "priority_level"] ∧
    (canonicalGenerate cls qs).get? "analysis_summary" =
      some (.str (create_analysis_summary cls qs)) ∧
    (canonicalGenerate cls qs).get? "actionable_items" =
      some (.arr ((extract_actionable_items
        (generate_template_feedback cls qs)).map JVal.str)) ∧
    (extract_actionable_items (generate_template_feedback cls qs)).length ≤ 5 ∧
    (canonicalGenerate cls qs).get? "priority_level" =
      some (.str (determine_priority_level cls qs)) ∧
    determine_priority_level cls qs ∈ (["low", "medium", "high"] : List String) := by
  have hie : cls.isEmpty = false := by
    cases cls with
    | nil => exact absurd rfl hne
    | cons a t => rfl
  refine ⟨?_, ?_, ?_, ?_, ?_, ?_⟩
  · simp only [canonicalGenerate, hie, Bool.false_eq_true, if_false]
    rfl
  · simp only [canonicalGenerate, hie, Bool.false_eq_true, if_false]
    rfl
  · simp only [canonicalGenerate, hie, Bool.false_eq_true, if_false]
    rfl
  · unfold extract_actionable_items
    simp
  · simp only [canonicalGenerate, hie, Bool.false_eq_true, if_false]
    rfl
  · unfold determine_priority_level
    split
    · simp
    · dsimp only
      split
      · simp
      · split <;> simp

/-- C6 witness: the five-key contract at a concrete one-element input. -/
theorem claim_C6_witness :
    ([JVal.obj []] : List JVal) ≠ [] ∧
    keysOf (canonicalGenerate [JVal.obj []] []) =
      ["feedback", "analysis_summary", "total_images_analyzed",
       "actionable_items", "priority_level"] :=
  ⟨List.cons_ne_nil _ _,
    (claim_C6_feedback_contract [JVal.obj []] [] (List.cons_ne_nil _ _)).1⟩

/-! ### Workflow invariants (claim C5) -/

/-- `analyze_photos` touches neither the attempt counters nor the retry flag. -/
theorem analyze_photos_counters (s : TriageState) (o : AnalyzeOutcome) :
    (analyze_photos s o).current_attempt = s.current_attempt ∧
    (analyze_photos s o).max_attempts = s.max_attempts := by
  cases o <;> exact ⟨rfl, rfl⟩

/-- `classify_photos_with_llm` touches neither of the attempt counters. -/
theorem classify_counters (s : TriageState) (o : ClassifyOutcome) :
    (classify_photos_with_llm s o).current_attempt = s.current_attempt ∧
    (classify_photos_with_llm s o).max_attempts = s.max_attempts := by
  cases o <;> exact ⟨rfl, rfl⟩

/-- `reflect_on_results` touches neither of the attempt counters. -/
theorem reflect_counters (set : WSettings) (s : TriageState) :
    (reflect_on_results set s).current_attempt = s.current_attempt ∧
    (reflect_on_results set s).max_attempts = s.max_attempts := by
  unfold reflect_on_results
  split <;> exact ⟨rfl, rfl⟩

/-- `generate_final_feedback` touches neither of the attempt counters. -/
theorem feedback_counters (s : TriageState) (o : FeedbackOutcome) :
    (generate_final_feedback s o).current_attempt = s.current_attempt ∧
    (generate_final_feedback s o).max_attempts = s.max_attempts := by
  cases o with
  | exc m => exact ⟨rfl, rfl⟩
  | ok t =>
      constructor
      · dsimp only [generate_final_feedback]
        split <;> rfl
      · dsimp only [generate_final_feedback]
        split <;> rfl

/-- `prepare_retry` strictly increments the attempt counter and keeps the
maximum. -/
theorem prepare_retry_counters (s : TriageState) :
    (prepare_retry s).current_attempt = s.current_attempt + 1 ∧
    (prepare_retry s).max_attempts = s.max_attempts :=
  ⟨rfl, rfl⟩

/-- `should_retry` selects the retry edge exactly when the retry flag is set
and the attempt counter is strictly below the maximum. -/
theorem should_retry_eq_retry_iff (s : TriageState) :
    should_retry s = "retry" ↔
      s.retry_needed = true ∧ s.current_attempt < s.max_attempts := by
  unfold should_retry
  cases hr : s.retry_needed with
  | false => simp
  | true =>
      simp only [Bool.not_true, Bool.false_eq_true, if_false]
      by_cases hc : s.current_attempt ≥ s.max_attempts
      · rw [if_pos hc]
        constructor
        · intro h
          exact absurd h (by decide)
        · rintro ⟨-, hlt⟩
          omega
      · rw [if_neg hc]
        constructor
        · intro _
          exact ⟨by trivial, by omega⟩
        · intro _
          rfl

/-- The conditional edge out of `reflect` goes to the retry node exactly when
`should_retry` says so. -/
theorem routeRetry_eq_retry_iff (s : TriageState) :
    routeRetry s = NodeTag.retry ↔ should_retry s = "retry" := by
  unfold routeRetry
  split <;> simp_all

/-- The edge out of `reflect` is either the retry node or the feedback node. -/
theorem routeRetry_cases (s : TriageState) :
    routeRetry s = NodeTag.retry ∨ routeRetry s = NodeTag.feedback := by
  unfold routeRetry
  split <;> simp

/-- The edge out of `classify_with_llm` is either the reflect node or the
feedback node. -/
theorem routeReflect_cases (set : WSettings) (s : TriageState) :
    routeReflect set s = NodeTag.reflect ∨ routeReflect set s = NodeTag.feedback := by
  unfold routeReflect
  split <;> simp

/-- Every workflow step preserves the counter invariant. -/
theorem step_inv {set : WSettings} {c c' : Config} (h : Step set c c')
    (hc : Inv c) : Inv c' := by
  cases h with
  | analyze s o =>
      obtain ⟨ha, hm⟩ := analyze_photos_counters s o
      exact ⟨by rw [ha, hm]; exact hc.1, fun hn => absurd hn (by simp)⟩
  | classify s o =>
      obtain ⟨ha, hm⟩ := classify_counters s o
      refine ⟨by rw [ha, hm]; exact hc.1, fun hn => ?_⟩
      dsimp only at hn
      rcases routeReflect_cases set (classify_photos_with_llm s o) with h1 | h1 <;>
        rw [h1] at hn <;> exact absurd hn (by simp)
  | reflect s =>
      obtain ⟨ha, hm⟩ := reflect_counters set s
      refine ⟨by rw [ha, hm]; exact hc.1, fun hn => ?_⟩
      dsimp only at hn
      have hsr := (routeRetry_eq_retry_iff _).mp hn
      exact (should_retry_eq_retry_iff _).mp hsr |>.2
  | retry s =>
      have hlt : s.current_attempt < s.max_attempts := hc.2 rfl
      obtain ⟨ha, hm⟩ := prepare_retry_counters s
      exact ⟨by rw [ha, hm]; omega, fun hn => absurd hn (by simp)⟩
  | feedback s o =>
      obtain ⟨ha, hm⟩ := feedback_counters s o
      exact ⟨by rw [ha, hm]; exact hc.1, fun hn => absurd hn (by simp)⟩

/-- The counter invariant holds at every reachable configuration. -/
theorem reach_inv {set : WSettings} {c₀ c : Config} (h : Reach set c₀ c)
    (h₀ : Inv c₀) : Inv c := by
  induction h with
  | refl => exact h₀
  | tail _ hstep ih => exact step_inv hstep ih

/-- Unfolding `countAnalyze` over a cons cell. -/
theorem countAnalyze_cons (c : Config) (l : List Config) :
    countAnalyze (c :: l) =
      (if c.node = NodeTag.analyze then 1 else 0) + countAnalyze l := by
  unfold countAnalyze
  rw [List.filter_cons]
  split <;> simp_all [Nat.add_comm]

/-- Bound on analyze passes along any finite run: remaining attempts plus one
if the run currently sits at the analyze node. -/
theorem trace_bound {set : WSettings} {c : Config} {l : List Config}
    (h : Trace set c l) (hc : Inv c) :
    countAnalyze (c :: l) ≤ (c.state.max_attempts - c.state.current_attempt) +
      (if c.node = NodeTag.analyze then 1 else 0) := by
  induction h with
  | nil c =>
      rw [countAnalyze_cons]
      split <;> simp [countAnalyze]
  | @cons c c' l hstep htr ih =>
      have hc' := step_inv hstep hc
      have hb := ih hc'
      rw [countAnalyze_cons]
      cases hstep with
      | analyze s o =>
          obtain ⟨ha, hm⟩ := analyze_photos_counters s o
          dsimp only at hb ⊢
          simp only [ha, hm] at hb
          simp only [show (NodeTag.classify = NodeTag.analyze) = False from by simp,
            if_false] at hb
          simp only [show (NodeTag.analyze = NodeTag.analyze) = True from by simp,
            if_true]
          omega
      | classify s o =>
          obtain ⟨ha, hm⟩ := classify_counters s o
          dsimp only at hb ⊢
          simp only [ha, hm] at hb
          have hne : routeReflect set (classify_photos_with_llm s o) ≠ NodeTag.analyze := by
            rcases routeReflect_cases set (classify_photos_with_llm s o) with h1 | h1 <;>
              rw [h1] <;> decide
          rw [if_neg hne] at hb
          simp only [show (NodeTag.classify = NodeTag.analyze) = False from by simp,
            if_false]
          omega
      | reflect s =>
          obtain ⟨ha, hm⟩ := reflect_counters set s
          dsimp only at hb ⊢
          simp only [ha, hm] at hb
          have hne : routeRetry (reflect_on_results set s) ≠ NodeTag.analyze := by
            rcases routeRetry_cases (reflect_on_results set s) with h1 | h1 <;>
              rw [h1] <;> decide
          rw [if_neg hne] at hb
          simp only [show (NodeTag.reflect = NodeTag.analyze) = False from by simp,
            if_false]
          omega
      | retry s =>
          have hlt : s.current_attempt < s.max_attempts := hc.2 rfl
          obtain ⟨ha, hm⟩ := prepare_retry_counters s
          dsimp only at hb ⊢
          simp only [ha, hm] at hb
          simp only [show (NodeTag.analyze = NodeTag.analyze) = True from by simp,
            if_true] at hb
          simp only [show (NodeTag.retry = NodeTag.analyze) = False from by simp,
            if_false]
          omega
      | feedback s o =>
          obtain ⟨ha, hm⟩ := feedback_counters s o
          dsimp only at hb ⊢
          simp only [ha, hm] at hb
          simp only [show (NodeTag.done = NodeTag.analyze) = False from by simp,
            if_false] at hb
          simp only [show (NodeTag.feedback = NodeTag.analyze) = False from by simp,
            if_false]
          omega

/-- Every step strictly decreases the termination measure (given the
invariant), so no run of the workflow is infinite. -/
theorem step_measure {set : WSettings} {c c' : Config} (h : Step set c c')
    (hc : Inv c) : wfMeasure c' < wfMeasure c := by
  cases h with
  | analyze s o =>
      obtain ⟨ha, hm⟩ := analyze_photos_counters s o
      dsimp only [wfMeasure, nodeRank]
      simp only [ha, hm]
      omega
  | classify s o =>
      obtain ⟨ha, hm⟩ := classify_counters s o
      have hr : nodeRank (routeReflect set (classify_photos_with_llm s o)) ≤ 2 := by
        rcases routeReflect_cases set (classify_photos_with_llm s o) with h1 | h1 <;>
          rw [h1] <;> decide
      dsimp only [wfMeasure]
      simp only [ha, hm, show nodeRank NodeTag.classify = 3 from rfl]
      omega
  | reflect s =>
      obtain ⟨ha, hm⟩ := reflect_counters set s
      have hr : nodeRank (routeRetry (reflect_on_results set s)) ≤ 1 := by
        rcases routeRetry_cases (reflect_on_results set s) with h1 | h1 <;>
          rw [h1] <;> decide
      dsimp only [wfMeasure]
      simp only [ha, hm, show nodeRank NodeTag.reflect = 2 from rfl]
      omega
  | retry s =>
      have hlt : s.current_attempt < s.max_attempts := hc.2 rfl
      obtain ⟨ha, hm⟩ := prepare_retry_counters s
      dsimp only [wfMeasure, nodeRank]
      simp only [ha, hm]
      omega
  | feedback s o =>
      obtain ⟨ha, hm⟩ := feedback_counters s o
      dsimp only [wfMeasure, nodeRank]
      simp only [ha, hm]
      omega

/-- C5: from an initial state with attempt 1 and `max_attempts ≥ 1`, every
reachable configuration satisfies `current_attempt ≤ max_attempts`;
`should_retry` selects the retry edge only when the retry flag is set and the
attempt counter is strictly below the maximum; `prepare_retry` strictly
increments the counter; every finite run passes through the analyze node at
most `max_attempts` times; every step strictly decreases a natural measure
(so every run is finite), every non-END configuration can step, and the END
marker is entered only from `generate_feedback`. -/
theorem claim_C5_workflow_bounded (set : WSettings) (init : TriageState)
    (h1 : init.current_attempt = 1) (h2 : 1 ≤ init.max_attempts) :
    (∀ c : Config, Reach set ⟨.analyze, init⟩ c →
      c.state.current_attempt ≤ c.state.max_attempts) ∧
    (∀ s : TriageState, should_retry s = "retry" ↔
      (s.retry_needed = true ∧ s.current_attempt < s.max_attempts)) ∧
    (∀ s : TriageState, (prepare_retry s).current_attempt = s.current_attempt + 1) ∧
    (∀ l : List Config, Trace set ⟨.analyze, init⟩ l →
      countAnalyze (⟨.analyze, init⟩ :: l) ≤ init.max_attempts) ∧
    (∀ c c' : Config, Reach set ⟨.analyze, init⟩ c → Step set c c' →
      wfMeasure c' < wfMeasure c) ∧
    (∀ c : Config, c.node ≠ NodeTag.done → ∃ c', Step set c c') ∧
    (∀ c c' : Config, Step set c c' → c'.node = NodeTag.done →
      c.node = NodeTag.feedback) := by
  have hInv : Inv ⟨NodeTag.analyze, init⟩ :=
    ⟨by rw [h1]; exact h2, fun hn => absurd hn (by simp)⟩
  refine ⟨?_, should_retry_eq_retry_iff, fun s => rfl, ?_, ?_, ?_, ?_⟩
  · intro c hr
    exact (reach_inv hr hInv).1
  · intro l ht
    have hb := trace_bound ht hInv
    simp only [show (NodeTag.analyze = NodeTag.analyze) = True from by simp,
      if_true] at hb
    simp only [h1] at hb
    omega
  · intro c c' hr hs
    exact step_measure hs (reach_inv hr hInv)
  · intro c hnd
    obtain ⟨n, s⟩ := c
    cases n with
    | analyze => exact ⟨_, Step.analyze s (.exc "")⟩
    | classify => exact ⟨_, Step.classify s (.exc "")⟩
    | reflect => exact ⟨_, Step.reflect s⟩
    | retry => exact ⟨_, Step.retry s⟩
    | feedback => exact ⟨_, Step.feedback s (.exc "")⟩
    | done => exact absurd rfl hnd
  · intro c c' hs hdone
    cases hs with
    | analyze s o => exact absurd hdone (by simp)
    | classify s o =>
        dsimp only at hdone
        rcases routeReflect_cases set (classify_photos_with_llm s o) with h1 | h1 <;>
          rw [h1] at hdone <;> exact absurd hdone (by simp)
    | reflect s =>
        dsimp only at hdone
        rcases routeRetry_cases (reflect_on_results set s) with h1 | h1 <;>
          rw [h1] at hdone <;> exact absurd hdone (by simp)
    | retry s => exact absurd hdone (by simp)
    | feedback s o => rfl

/-- C5 witness: the reachability invariant applied to the concrete initial
state (one image, three attempts) at the initial configuration itself. -/
theorem claim_C5_witness :
    (create_initial_state ["a.jpg"] none 3).current_attempt = 1 ∧
    1 ≤ (create_initial_state ["a.jpg"] none 3).max_attempts ∧
    (Config.mk .analyze (create_initial_state ["a.jpg"] none 3)).state.current_attempt ≤
      (Config.mk .analyze (create_initial_state ["a.jpg"] none 3)).state.max_attempts :=
  ⟨rfl, by decide,
    (claim_C5_workflow_bounded ⟨7 / 10, true⟩ (create_initial_state ["a.jpg"] none 3)
      rfl (by decide)).1 _ Relation.ReflTransGen.refl⟩

end PhotoTriage
